import Mathlib

/-!
# Verification of the game-town session hub (`server/main.py`)

A shallow embedding of the WebSocket session hub: the connection/player
registry, the fan-out delivery helpers (`broadcast`, `send_to_players`),
the per-message handlers of `ws_endpoint`, and the authoritative pong
`game_loop`.

Conventions of the embedding:
* Python floats are modelled as `ℚ`; all arithmetic appearing in the
  source (`+`, `*`, `abs`, comparisons, the constants `1.05`, `0.5`) is
  exact on the values involved.
* Python dicts are association lists `List (String × β)`; assignment is
  `mapInsert` (erase then cons) and `pop` is `mapErase`.
* Delivery failure of a transport is environment-determined, so the
  fan-out helpers take a `fails : String → Bool` oracle saying which
  recipients' sends raise.
* The concurrently mutated paddle positions read afresh by the game loop
  at each tick are abstracted as a schedule `pad : ℕ → ℚ × ℚ` giving the
  `(left.y, right.y)` values the loop observes at each tick.
-/

/-- A player record: `{"id", "name", "x", "y", "zone"}` (line 87). -/
structure Player where
  pid : String
  name : String
  x : ℚ
  y : ℚ
  zone : String
  deriving DecidableEq, Repr

/-- The ball dict `{'x','y','vx','vy','r'}` (line 195). -/
structure Ball where
  x : ℚ
  y : ℚ
  vx : ℚ
  vy : ℚ
  r : ℚ
  deriving DecidableEq, Repr

/-- Ball plus scores: the part of the game state the physics tick mutates. -/
structure SimState where
  ball : Ball
  scoreL : ℕ
  scoreR : ℕ
  deriving DecidableEq, Repr

/-- Python `a or b` on a float `a`: `b` when `a` is zero (falsy), else `a`.
Used at lines 224 and 233: `speed = (...) * 1.05 or 5.0`. -/
def pyOr (a b : ℚ) : ℚ :=
  if a = 0 then b else a

/-- Lines 206-208: integrate the ball position by its velocity. -/
def integratePhase (b : Ball) : Ball :=
  { b with x := b.x + b.vx, y := b.y + b.vy }

/-- Lines 210-213: top/bottom wall bounce, clamping and inverting `vy`. -/
def wallPhase (b : Ball) : Ball :=
  let b1 := if b.y - b.r ≤ 0 then { b with y := b.r, vy := -b.vy } else b
  if b1.y + b1.r ≥ 500 then { b1 with y := 500 - b1.r, vy := -b1.vy } else b1

/-- Left paddle collision plane: `left_x = 30 + 12` (line 215). -/
def leftX : ℚ := 30 + 12

/-- Right paddle collision plane: `right_x = 800 - 42` (line 216). -/
def rightX : ℚ := 800 - 42

/-- Lines 220-227: left paddle collision.  The unused `angle` local of the
source is dead code and is omitted. -/
def leftCollide (ly : ℚ) (b : Ball) : Ball :=
  if b.x - b.r ≤ leftX ∧ b.y > ly ∧ b.y < ly + 100 then
    let rel := (b.y - (ly + 50)) / 50
    let speed := pyOr ((|b.vx| + |b.vy|) * 1.05) 5
    { b with x := leftX + b.r, vx := |speed| * 1, vy := speed * (0.5 * rel) }
  else b

/-- Lines 229-236: right paddle collision, run on the ball as left by the
left-paddle check. -/
def rightCollide (ry : ℚ) (b : Ball) : Ball :=
  if b.x + b.r ≥ rightX ∧ b.y > ry ∧ b.y < ry + 100 then
    let rel := (b.y - (ry + 50)) / 50
    let speed := pyOr ((|b.vx| + |b.vy|) * 1.05) 5
    { b with x := rightX - b.r, vx := -(|speed| * 1), vy := speed * (0.5 * rel) }
  else b

/-- Lines 214-236: both paddle checks in source order (left, then right on
the updated ball). -/
def collidePhase (ly ry : ℚ) (b : Ball) : Ball :=
  rightCollide ry (leftCollide ly b)

/-- `b.update({'x':400.0,'y':250.0,'vx':v,'vy':0.0})`: reset keeps `r`. -/
def resetBall (v : ℚ) (b : Ball) : Ball :=
  { b with x := 400, y := 250, vx := v, vy := 0 }

/-- Lines 238-244: scoring, two sequential `if`s as in the source. -/
def scorePhase (b : Ball) (sL sR : ℕ) : Ball × ℕ × ℕ :=
  let p1 := if b.x < 0 then (resetBall 5 b, sR + 1) else (b, sR)
  if p1.1.x > 800 then (resetBall (-5) p1.1, sL + 1, p1.2) else (p1.1, sL, p1.2)

/-- One physics tick of `game_loop` (lines 205-244), with the paddle
positions `ly`, `ry` the loop reads at lines 217-218. -/
def tickPhysics (ly ry : ℚ) (s : SimState) : SimState :=
  let b := collidePhase ly ry (wallPhase (integratePhase s.ball))
  let r := scorePhase b s.scoreL s.scoreR
  ⟨r.1, r.2.1, r.2.2⟩

/-- Iterated physics ticks under constant paddle positions. -/
def simIter (ly ry : ℚ) : ℕ → SimState → SimState
  | 0, s => s
  | n + 1, s => tickPhysics ly ry (simIter ly ry n s)

/-- The game state seeded at invite acceptance (lines 191-199):
ball at (400, 250), velocity (5, 0), radius 9, scores (0, 0). -/
def initSim : SimState :=
  ⟨⟨400, 250, 5, 0, 9⟩, 0, 0⟩

/-- Messages the game loop emits, with their recipient id lists
(`send_to_players(participant_ids, ...)`). -/
inductive GMsg where
  | snap (recipients : List String) (ball : Ball) (ly ry : ℚ) (scores : ℕ × ℕ)
  | over (recipients : List String) (scores : ℕ × ℕ)
  deriving DecidableEq, Repr

/-- Whether a loop message is a `game_over`. -/
def GMsg.isOver : GMsg → Bool
  | .over _ _ => true
  | _ => false

/-- Number of `game_over` messages in a trace. -/
def overCount (l : List GMsg) : ℕ :=
  l.countP GMsg.isOver

/-- One iteration of the `while True` body of `game_loop` (lines 205-257):
physics, a `game_state` snapshot to the participants, then the win check,
which emits `game_over` to the participants and breaks. -/
def loopStep (ly ry : ℚ) (winTo : ℕ) (parts : List String) (s : SimState) :
    SimState × List GMsg × Bool :=
  let s1 := tickPhysics ly ry s
  let snapMsg := GMsg.snap parts s1.ball ly ry (s1.scoreL, s1.scoreR)
  if winTo ≤ s1.scoreL ∨ winTo ≤ s1.scoreR then
    (s1, [snapMsg, GMsg.over parts (s1.scoreL, s1.scoreR)], true)
  else
    (s1, [snapMsg], false)

/-- The trace of messages emitted by running `game_loop` for up to `n`
ticks; `pad i` is the paddle position pair the loop observes at its
`i`-th remaining tick (the shared paddle dict as mutated by `paddle_move`).
The trace stops early when the loop breaks on the win condition. -/
def loopRun (pad : ℕ → ℚ × ℚ) (winTo : ℕ) (parts : List String) :
    ℕ → SimState → List GMsg
  | 0, _ => []
  | n + 1, s =>
    let r := loopStep (pad 0).1 (pad 0).2 winTo parts s
    r.2.1 ++ (if r.2.2 then [] else loopRun (fun i => pad (i + 1)) winTo parts n r.1)

/-! ## Registry, fan-out and message handlers -/

/-- Lookup in an association list (Python `d.get(k)` / `k in d`). -/
def mapLookup (k : String) : List (String × β) → Option β
  | [] => none
  | q :: l => if q.1 = k then some q.2 else mapLookup k l

/-- Python `d.pop(k, None)`: drop every binding of `k`. -/
def mapErase (k : String) : List (String × β) → List (String × β)
  | [] => []
  | q :: l => if q.1 = k then mapErase k l else q :: mapErase k l

/-- Python `d[k] = v`: bind `k` to `v`, dropping any earlier binding. -/
def mapInsert (k : String) (v : β) (l : List (String × β)) : List (String × β) :=
  (k, v) :: mapErase k l

/-- The pending-invite record (line 152):
`{"game", "zone", "host", "participants"}`. -/
structure PendingGame where
  game : String
  zone : String
  host : Player
  participants : List String
  deriving DecidableEq, Repr

/-- The stored game-state dict built at lines 191-199. -/
structure StoredGame where
  host : Player
  hostId : String
  participants : List String
  ball : Ball
  padL : ℚ
  padR : ℚ
  scoreL : ℕ
  scoreR : ℕ
  winTo : ℕ
  deriving DecidableEq, Repr

/-- An `active_games` entry (line 262): the shared state dict plus the
spawned loop task, abstracted to the fact that it was started. -/
structure ActiveEntry where
  state : StoredGame
  taskStarted : Bool
  deriving DecidableEq, Repr

/-- The module-level mutable maps (lines 20-23).  Transport handles are
abstracted to numeric tokens. -/
structure ServerState where
  players : List (String × Player)
  connections : List (String × ℕ)
  pending : List (String × PendingGame)
  active : List (String × ActiveEntry)
  deriving DecidableEq, Repr

/-- Both registry maps have the same key set: every registered player has
exactly one connection and vice versa. -/
def keysAligned (st : ServerState) : Prop :=
  ∀ k, (mapLookup k st.players).isSome ↔ (mapLookup k st.connections).isSome

/-- Remove the given ids from both registry maps: the `to_remove` loops of
`broadcast` (lines 36-38) and `send_to_players` (lines 53-55). -/
def evictAll (pids : List String) (st : ServerState) : ServerState :=
  { st with
    players := pids.foldl (fun m q => mapErase q m) st.players
    connections := pids.foldl (fun m q => mapErase q m) st.connections }

/-- `broadcast(message, exclude)` (lines 26-38): send to every registered
connection except `exclude`; a failed send evicts that connection and its
player.  Returns the new state and the ids actually delivered to, in
iteration order. -/
def broadcast (fails : String → Bool) (exclude : Option String) (st : ServerState) :
    ServerState × List String :=
  let targets := (st.connections.map (·.1)).filter (fun q => !(some q == exclude))
  let toRemove := targets.filter (fun q => fails q)
  let delivered := targets.filter (fun q => !(fails q))
  (evictAll toRemove st, delivered)

/-- `send_to_players(player_ids, message)` (lines 41-55): same, restricted
to an id list; an id with no live connection counts as a failure and is
evicted. -/
def send_to_players (fails : String → Bool) (pids : List String) (st : ServerState) :
    ServerState × List String :=
  let toRemove := pids.filter (fun q => (mapLookup q st.connections).isNone || fails q)
  let delivered := pids.filter (fun q => (mapLookup q st.connections).isSome && !(fails q))
  (evictAll toRemove st, delivered)

/-- Lines 87-89: build the spawn-default player record and register it in
both maps. -/
def registerPlayer (pid : String) (name : String) (ws : ℕ) (st : ServerState) :
    ServerState :=
  { st with
    players := mapInsert pid ⟨pid, name, 100, 100, "town"⟩ st.players
    connections := mapInsert pid ws st.connections }

/-- Lines 281-290: disconnect / error cleanup — pop the player and its
connection, then broadcast a `player_left` notice (whose own delivery
failures evict further connections). -/
def disconnectCleanup (fails : String → Bool) (pid : String) (st : ServerState) :
    ServerState × List String :=
  broadcast fails none
    { st with
      players := mapErase pid st.players
      connections := mapErase pid st.connections }

/-- Observables of the `move` handler: the updated record that is put in
the `player_moved` payload, and the ids the broadcast delivered to. -/
structure MoveOut where
  player : Player
  delivered : List String
  deriving DecidableEq, Repr

/-- The `move` branch (lines 102-109): each coordinate defaults to the
player's previous value when omitted (`float` coercion is the identity on
the rationals modelling the floats), the record is written back, and
`player_moved` is broadcast with `exclude=None`.  `p` is the connection's
live `player` local. -/
def handleMove (fails : String → Bool) (pid : String) (p : Player)
    (mx my : Option ℚ) (st : ServerState) : ServerState × MoveOut :=
  let p1 := { p with x := mx.getD p.x, y := my.getD p.y }
  let st1 := { st with players := mapInsert pid p1 st.players }
  let r := broadcast fails none st1
  (r.1, ⟨p1, r.2⟩)

/-- Observables of the `chat` branch: the truncated content, the ids the
proximity fan-out delivered to, and whether the sender got its echo. -/
structure ChatOut where
  content : String
  delivered : List String
  senderEcho : Bool
  deriving DecidableEq, Repr

/-- The `chat` branch (lines 111-129): truncate to 1000 characters,
collect the other players within squared distance `200 ** 2`, fan out to
them, then send the same payload straight to the sender's own socket. -/
def handleChat (fails : String → Bool) (pid : String) (p : Player)
    (content : String) (st : ServerState) : ServerState × ChatOut :=
  let content1 := content.take 1000
  let nearby := (st.players.filter (fun q =>
    decide (¬ q.1 = pid ∧ (q.2.x - p.x) ^ 2 + (q.2.y - p.y) ^ 2 ≤ 200 ^ 2))).map (·.1)
  let r := send_to_players fails nearby st
  (r.1, ⟨content1, r.2, true⟩)

/-- A frame arriving while the connection is still in the handshake loop:
either a `join` (with its optional `name` field) or anything else. -/
inductive HMsg where
  | join (name : Option String)
  | other
  deriving DecidableEq, Repr

/-- Python `a or b` on an optional string `a` (line 69): the default when
`a` is `None` or empty (falsy). -/
def pyOrStr (a : Option String) (b : String) : String :=
  match a with
  | none => b
  | some s => if s = "" then b else s

/-- Python `str.strip()`: drop whitespace from both ends. -/
def pyStrip (s : String) : String :=
  ⟨((s.data.dropWhile Char.isWhitespace).reverse.dropWhile Char.isWhitespace).reverse⟩

/-- Messages the handshake sends back on its own socket or broadcasts. -/
inductive OutMsg where
  | joinRejected (reason : String) (suggestion : String)
  | welcome (you : Player) (playersList : List Player)
  | playerJoined (player : Player) (delivered : List String)
  deriving DecidableEq, Repr

/-- Lines 87-95, run once the handshake loop breaks with a name: register
the spawn-default player, send `welcome` with the current player list,
broadcast `player_joined` to everyone else. -/
def finishJoin (ws : ℕ) (fails : String → Bool) (pid : String) (name : String)
    (st : ServerState) : ServerState × List OutMsg × Option String :=
  let st1 := registerPlayer pid name ws st
  let r := broadcast fails (some pid) st1
  (r.1,
   [OutMsg.welcome ⟨pid, name, 100, 100, "town"⟩ (st1.players.map (·.2)),
    OutMsg.playerJoined ⟨pid, name, 100, 100, "town"⟩ r.2],
   some name)

/-- The handshake `while` loop (lines 63-95) over the connection's
incoming frames.  A duplicate proposed name is answered with
`join_rejected` (suggestion `proposed + "-1"`) and the loop continues on
the remaining frames; a fresh name, or any non-`join` frame (auto-name,
disambiguated with the `fresh` random suffix), registers and joins.
Returns the final state, the sent messages, and the assigned name, `none`
when the frames ran out while still awaiting a join. -/
def runHandshake (fresh : String) (ws : ℕ) (fails : String → Bool) (pid : String)
    (st : ServerState) : List HMsg → ServerState × List OutMsg × Option String
  | [] => (st, [], none)
  | HMsg.join nameOpt :: rest =>
    let proposed := pyStrip (pyOrStr nameOpt ("Player-" ++ pid.take 4))
    if st.players.any (fun q => q.2.name == proposed) then
      let r := runHandshake fresh ws fails pid st rest
      (r.1, OutMsg.joinRejected "duplicate" (proposed ++ "-1") :: r.2.1, r.2.2)
    else
      finishJoin ws fails pid proposed st
  | HMsg.other :: _ =>
    let auto := "Player-" ++ pid.take 4
    let auto1 := if st.players.any (fun q => q.2.name == auto) then
      auto ++ "-" ++ fresh else auto
    finishJoin ws fails pid auto1 st

/-- A participant record annotated with its side (lines 178-182). -/
structure SidedPlayer where
  player : Player
  side : String
  deriving DecidableEq, Repr

/-- Observables of a successful invite acceptance: the consumed invite,
the side-annotated roster of the `game_started` payload, and the ids the
broadcast delivered to. -/
structure StartedOut where
  pend : PendingGame
  roster : List SidedPlayer
  delivered : List String
  deriving DecidableEq, Repr

/-- The `join_game` branch (lines 162-262).  With no pending invite for
the (truthy) host id, nothing happens.  Otherwise the invite is popped,
the roster is built from `[host, joiner]` — `players.get` misses are
skipped, index 0 is `"left"`, index 1 is `"right"` —, `game_started` is
broadcast to all, and the active game keyed by the host id is seeded
(ball (400, 250), velocity (5, 0), radius 9, paddles 200, scores (0, 0),
`winTo` 7) with its loop task started. -/
def handleJoinGame (fails : String → Bool) (joinerPid : String)
    (hostIdOpt : Option String) (st : ServerState) : ServerState × Option StartedOut :=
  match hostIdOpt with
  | none => (st, none)
  | some hostId =>
    if hostId = "" then (st, none)
    else
      match mapLookup hostId st.pending with
      | none => (st, none)
      | some pend =>
        let st1 := { st with pending := mapErase hostId st.pending }
        let roster :=
          (match mapLookup hostId st1.players with
           | some hp => [({ player := hp, side := "left" } : SidedPlayer)]
           | none => []) ++
          (match mapLookup joinerPid st1.players with
           | some jp => [({ player := jp, side := "right" } : SidedPlayer)]
           | none => [])
        let r := broadcast fails none st1
        let gs : StoredGame :=
          ⟨pend.host, hostId, roster.map (fun q => q.player.pid),
           ⟨400, 250, 5, 0, 9⟩, 200, 200, 0, 0, 7⟩
        ({ r.1 with active := mapInsert hostId ⟨gs, true⟩ r.1.active },
         some ⟨pend, roster, r.2⟩)

/-- The `paddle_move` block (lines 268-279), reachable from any
connection with no participant check: a falsy or unknown host id is
ignored; side `"left"` sets the left paddle, any other side — `"right"`,
absent, or invalid — sets the right paddle, to `y` (default 0) clamped to
`[0, 500 - 100]`. -/
def handlePaddleMove (hostIdOpt sideOpt : Option String) (yOpt : Option ℚ)
    (st : ServerState) : ServerState :=
  let y := yOpt.getD 0
  match hostIdOpt with
  | none => st
  | some hostId =>
    if hostId = "" then st
    else
      match mapLookup hostId st.active with
      | none => st
      | some ag =>
        let gs1 := if sideOpt = some "left" then
          { ag.state with padL := max 0 (min (500 - 100) y) }
        else
          { ag.state with padR := max 0 (min (500 - 100) y) }
        { st with active := mapInsert hostId { ag with state := gs1 } st.active }

/-! ## Association-list lemmas -/

theorem mapLookup_erase (k k' : String) (l : List (String × β)) :
    mapLookup k (mapErase k' l) = if k' = k then none else mapLookup k l := by
  induction l with
  | nil => simp [mapLookup, mapErase]
  | cons q l ih =>
    by_cases h1 : q.1 = k' <;> by_cases h2 : q.1 = k <;> by_cases h3 : k' = k <;>
      simp_all [mapErase, mapLookup]

theorem mapLookup_insert (k k' : String) (v : β) (l : List (String × β)) :
    mapLookup k (mapInsert k' v l) = if k' = k then some v else mapLookup k l := by
  simp only [mapInsert, mapLookup, mapLookup_erase]
  by_cases h : k' = k <;> simp [h]

theorem mapLookup_mem_keys {l : List (String × β)} {k : String} {v : β}
    (h : mapLookup k l = some v) : k ∈ l.map (·.1) := by
  induction l with
  | nil => simp [mapLookup] at h
  | cons q l ih =>
    simp only [mapLookup] at h
    by_cases h1 : q.1 = k
    · simp [← h1]
    · simp only [if_neg h1] at h
      simp [ih h]

theorem mem_iff_mapLookup_of_nodup {l : List (String × β)} {k : String} {v : β}
    (hnd : (l.map (·.1)).Nodup) : (k, v) ∈ l ↔ mapLookup k l = some v := by
  induction l with
  | nil => simp [mapLookup]
  | cons q l ih =>
    simp only [List.map_cons, List.nodup_cons] at hnd
    by_cases h1 : q.1 = k
    · simp only [List.mem_cons, mapLookup, if_pos h1]
      constructor
      · rintro (rfl | hm)
        · rfl
        · exact absurd (h1 ▸ List.mem_map_of_mem (·.1) hm) hnd.1
      · intro hv
        left
        obtain ⟨q1, q2⟩ := q
        simp only at h1
        simp only [Option.some.injEq] at hv
        simp [h1, hv]
    · simp only [List.mem_cons, mapLookup, if_neg h1, ih hnd.2]
      constructor
      · rintro (rfl | hm)
        · exact absurd rfl h1
        · exact hm
      · exact fun hm => Or.inr hm

/-! ## Registry alignment (C9) -/

theorem keysAligned_eraseBoth (p : String) (st : ServerState) (h : keysAligned st) :
    keysAligned
      { st with players := mapErase p st.players,
                connections := mapErase p st.connections } := by
  intro k
  simp only [mapLookup_erase]
  by_cases hp : p = k
  · simp [hp]
  · simpa [hp] using h k

theorem keysAligned_evictAll (pids : List String) (st : ServerState)
    (h : keysAligned st) : keysAligned (evictAll pids st) := by
  induction pids generalizing st with
  | nil => exact h
  | cons p ps ih =>
    have hstep := keysAligned_eraseBoth p st h
    have heq : evictAll (p :: ps) st =
        evictAll ps
          { st with players := mapErase p st.players,
                    connections := mapErase p st.connections } := rfl
    rw [heq]
    exact ih _ hstep

/-- C9: after every operation that mutates the registry — registration on
join, eviction of a failed recipient during `broadcast` or
`send_to_players`, and disconnect/error cleanup — the key set of the
players map equals the key set of the connections map: a player and its
connection are always registered and removed together. -/
theorem c9_registry_alignment (st : ServerState) (h : keysAligned st) :
    (∀ pid name ws, keysAligned (registerPlayer pid name ws st))
    ∧ (∀ fails exclude, keysAligned (broadcast fails exclude st).1)
    ∧ (∀ fails pids, keysAligned (send_to_players fails pids st).1)
    ∧ (∀ fails pid, keysAligned (disconnectCleanup fails pid st).1) := by
  refine ⟨?_, ?_, ?_, ?_⟩
  · intro pid name ws k
    simp only [registerPlayer, mapLookup_insert]
    by_cases hp : pid = k
    · simp [hp]
    · simpa [hp] using h k
  · intro fails exclude
    exact keysAligned_evictAll _ st h
  · intro fails pids
    exact keysAligned_evictAll _ st h
  · intro fails pid
    exact keysAligned_evictAll _ _ (keysAligned_eraseBoth pid st h)

/-- Witness for C9 at the empty registry. -/
theorem c9_registry_alignment_witness :
    (∀ pid name ws, keysAligned (registerPlayer pid name ws ⟨[], [], [], []⟩))
    ∧ (∀ fails exclude, keysAligned (broadcast fails exclude ⟨[], [], [], []⟩).1)
    ∧ (∀ fails pids, keysAligned (send_to_players fails pids ⟨[], [], [], []⟩).1)
    ∧ (∀ fails pid, keysAligned (disconnectCleanup fails pid ⟨[], [], [], []⟩).1) :=
  c9_registry_alignment ⟨[], [], [], []⟩ (fun _ => Iff.rfl)

/-! ## The paddle corridor (C2) -/

theorem tickPhysics_corridor (x vx : ℚ) :
    ∃ x1 vx1, tickPhysics 200 200 ⟨⟨x, 250, vx, 0, 9⟩, 0, 0⟩ =
      ⟨⟨x1, 250, vx1, 0, 9⟩, 0, 0⟩ ∧ 51 ≤ x1 ∧ x1 ≤ 749 := by
  have hint : integratePhase ⟨x, 250, vx, 0, 9⟩ = ⟨x + vx, 250, vx, 0, 9⟩ := by
    simp [integratePhase]
  have hwall : wallPhase ⟨x + vx, 250, vx, 0, 9⟩ = ⟨x + vx, 250, vx, 0, 9⟩ := by
    simp only [wallPhase]
    norm_num
  by_cases hL : x + vx - 9 ≤ leftX
  · have hleft : leftCollide 200 ⟨x + vx, 250, vx, 0, 9⟩ =
        ⟨51, 250, |pyOr ((|vx| + |(0 : ℚ)|) * 1.05) 5|, 0, 9⟩ := by
      simp only [leftCollide]
      rw [if_pos ⟨hL, by norm_num, by norm_num⟩]
      norm_num [leftX]
    have hright : rightCollide 200 ⟨51, 250, |pyOr ((|vx| + |(0 : ℚ)|) * 1.05) 5|, 0, 9⟩ =
        ⟨51, 250, |pyOr ((|vx| + |(0 : ℚ)|) * 1.05) 5|, 0, 9⟩ := by
      simp only [rightCollide]
      rw [if_neg]
      norm_num [rightX]
    refine ⟨51, |pyOr ((|vx| + |(0 : ℚ)|) * 1.05) 5|, ?_, by norm_num, by norm_num⟩
    simp only [tickPhysics, collidePhase, hint, hwall, hleft, hright, scorePhase]
    norm_num
  · by_cases hR : x + vx + 9 ≥ rightX
    · have hleft : leftCollide 200 ⟨x + vx, 250, vx, 0, 9⟩ = ⟨x + vx, 250, vx, 0, 9⟩ := by
        simp only [leftCollide]
        rw [if_neg]
        intro hc
        exact hL hc.1
      have hright : rightCollide 200 ⟨x + vx, 250, vx, 0, 9⟩ =
          ⟨749, 250, -|pyOr ((|vx| + |(0 : ℚ)|) * 1.05) 5|, 0, 9⟩ := by
        simp only [rightCollide]
        rw [if_pos ⟨hR, by norm_num, by norm_num⟩]
        norm_num [rightX]
      refine ⟨749, -|pyOr ((|vx| + |(0 : ℚ)|) * 1.05) 5|, ?_, by norm_num, by norm_num⟩
      simp only [tickPhysics, collidePhase, hint, hwall, hleft, hright, scorePhase]
      norm_num
    · have hL1 : 51 < x + vx := by
        simp only [leftX] at hL
        push_neg at hL
        linarith
      have hR1 : x + vx < 749 := by
        simp only [rightX] at hR
        push_neg at hR
        linarith
      have hleft : leftCollide 200 ⟨x + vx, 250, vx, 0, 9⟩ = ⟨x + vx, 250, vx, 0, 9⟩ := by
        simp only [leftCollide]
        rw [if_neg]
        intro hc
        exact hL hc.1
      have hright : rightCollide 200 ⟨x + vx, 250, vx, 0, 9⟩ = ⟨x + vx, 250, vx, 0, 9⟩ := by
        simp only [rightCollide]
        rw [if_neg]
        intro hc
        exact hR hc.1
      refine ⟨x + vx, vx, ?_, by linarith, by linarith⟩
      simp only [tickPhysics, collidePhase, hint, hwall, hleft, hright, scorePhase]
      split_ifs with hA hB <;> first | rfl | (exfalso; simp only [resetBall] at *; linarith)

theorem simIter_corridor : ∀ n : ℕ,
    ∃ x1 vx1, simIter 200 200 n initSim = ⟨⟨x1, 250, vx1, 0, 9⟩, 0, 0⟩
      ∧ 51 ≤ x1 ∧ x1 ≤ 749 := by
  intro n
  induction n with
  | zero => exact ⟨400, 5, rfl, by norm_num, by norm_num⟩
  | succ n ih =>
    obtain ⟨x1, vx1, heq, hb1, hb2⟩ := ih
    simp only [simIter, heq]
    exact tickPhysics_corridor x1 vx1

/-- C2, refuted: with both paddles held at their initial y = 200, the ball
started at (400, 250) with velocity (5, 0) is inside both paddles' strike
zones (200 < 250 < 300), so there is no number of ticks after which it has
crossed x < 0 or the right score has been incremented. -/
theorem c2_counterexample :
    ¬ ∃ n : ℕ, (simIter 200 200 n initSim).ball.x < 0
      ∨ 0 < (simIter 200 200 n initSim).scoreR := by
  rintro ⟨n, hn⟩
  obtain ⟨x1, vx1, heq, hb1, _⟩ := simIter_corridor n
  rw [heq] at hn
  rcases hn with h | h
  · have hx : (⟨⟨x1, 250, vx1, 0, 9⟩, 0, 0⟩ : SimState).ball.x = x1 := rfl
    rw [hx] at h
    linarith
  · have hs : (⟨⟨x1, 250, vx1, 0, 9⟩, 0, 0⟩ : SimState).scoreR = 0 := rfl
    rw [hs] at h
    exact absurd h (lt_irrefl 0)

/-- C2, amended: for an active game receiving no `paddle_move` input (both
paddles at their initial y = 200), the ball at (400, 250) with velocity
(5, 0) is perpetually intercepted by the paddles: after every number of
ticks its x lies in [51, 749], its y stays 250, its vertical velocity
stays 0, and both scores remain 0 — it never reaches x < 0 and no score
is ever incremented or ball reset performed. -/
theorem c2_paddles_block_forever : ∀ n : ℕ,
    (simIter 200 200 n initSim).scoreL = 0
    ∧ (simIter 200 200 n initSim).scoreR = 0
    ∧ (simIter 200 200 n initSim).ball.y = 250
    ∧ (simIter 200 200 n initSim).ball.vy = 0
    ∧ 51 ≤ (simIter 200 200 n initSim).ball.x
    ∧ (simIter 200 200 n initSim).ball.x ≤ 749 := by
  intro n
  obtain ⟨x1, vx1, heq, hb1, hb2⟩ := simIter_corridor n
  rw [heq]
  exact ⟨rfl, rfl, rfl, rfl, hb1, hb2⟩

/-! ## Paddle collision response (C4) -/

theorem abs_pyOr_speed (a c : ℚ) :
    |pyOr ((|a| + |c|) * 1.05) 5| = pyOr ((|a| + |c|) * 1.05) 5 := by
  unfold pyOr
  split_ifs with h
  · norm_num
  · have h0 : 0 ≤ (|a| + |c|) * 1.05 := by positivity
    exact abs_of_nonneg h0

/-- C4: on each tick, the left paddle collision fires exactly when the
ball's leading edge `x − r` has crossed the plane x = 42 while its y lies
strictly between the paddle's y and y + 100; the response repositions the
ball just outside the paddle, and with `rel = (y − (paddle.y + 50)) / 50`
and `speed = (|vx| + |vy|) × 1.05` (5.0 substituted when that product is
zero, which is what `pyOr` does) sets `vx = +speed`,
`vy = speed × 0.5 × rel`; the right paddle is the mirror at the plane
x = 758, producing `vx = −speed`. -/
theorem c4_paddle_collision (ly ry : ℚ) (b : Ball) (hr : b.r = 9)
    (relL speedL relR speedR : ℚ)
    (hrelL : relL = (b.y - (ly + 50)) / 50)
    (hspeedL : speedL = pyOr ((|b.vx| + |b.vy|) * 1.05) 5)
    (hrelR : relR = (b.y - (ry + 50)) / 50)
    (hspeedR : speedR = pyOr ((|b.vx| + |b.vy|) * 1.05) 5) :
    ((b.x - b.r ≤ 42 ∧ ly < b.y ∧ b.y < ly + 100) →
      collidePhase ly ry b =
        { b with x := 42 + b.r, vx := speedL, vy := speedL * 0.5 * relL })
    ∧ (¬ (b.x - b.r ≤ 42 ∧ ly < b.y ∧ b.y < ly + 100) →
        ((758 ≤ b.x + b.r ∧ ry < b.y ∧ b.y < ry + 100) →
          collidePhase ly ry b =
            { b with x := 758 - b.r, vx := -speedR, vy := speedR * 0.5 * relR })
        ∧ (¬ (758 ≤ b.x + b.r ∧ ry < b.y ∧ b.y < ry + 100) →
            collidePhase ly ry b = b)) := by
  subst hrelL hspeedL hrelR hspeedR
  have hlX : leftX = 42 := by norm_num [leftX]
  have hrX : rightX = 758 := by norm_num [rightX]
  constructor
  · intro hfire
    have hfire1 : b.x - b.r ≤ leftX ∧ b.y > ly ∧ b.y < ly + 100 := by
      exact ⟨hlX ▸ hfire.1, hfire.2.1, hfire.2.2⟩
    simp only [collidePhase, leftCollide, if_pos hfire1]
    rw [rightCollide, if_neg]
    · rw [hlX, abs_pyOr_speed]
      simp [mul_assoc]
    · intro hc
      rw [hlX, hr] at hc
      have := hc.1
      rw [hrX] at this
      norm_num at this
  · intro hnofire
    have hnofire1 : ¬ (b.x - b.r ≤ leftX ∧ b.y > ly ∧ b.y < ly + 100) := by
      rw [hlX]
      exact hnofire
    constructor
    · intro hfireR
      have hfireR1 : b.x + b.r ≥ rightX ∧ b.y > ry ∧ b.y < ry + 100 := by
        exact ⟨hrX ▸ hfireR.1, hfireR.2.1, hfireR.2.2⟩
      simp only [collidePhase, leftCollide, if_neg hnofire1, rightCollide, if_pos hfireR1]
      rw [hrX, abs_pyOr_speed]
      simp [mul_assoc]
    · intro hnoR
      have hnoR1 : ¬ (b.x + b.r ≥ rightX ∧ b.y > ry ∧ b.y < ry + 100) := by
        rw [hrX]
        exact hnoR
      simp only [collidePhase, leftCollide, if_neg hnofire1, rightCollide, if_neg hnoR1]

/-- Witness for C4: a ball at (50, 250) moving left with radius 9 against
a left paddle at y = 200 (rel = 0, speed = 5 × 1.05), and the same ball
against the planes with neither condition met for the right paddle at
y = 0. -/
theorem c4_paddle_collision_witness :
    (((50 : ℚ) - 9 ≤ 42 ∧ (200 : ℚ) < 250 ∧ (250 : ℚ) < 200 + 100) →
      collidePhase 200 0 ⟨50, 250, -5, 0, 9⟩ =
        { (⟨50, 250, -5, 0, 9⟩ : Ball) with
            x := 42 + 9, vx := (21 / 4 : ℚ), vy := (21 / 4 : ℚ) * 0.5 * 0 })
    ∧ (¬ ((50 : ℚ) - 9 ≤ 42 ∧ (200 : ℚ) < 250 ∧ (250 : ℚ) < 200 + 100) →
        (((758 : ℚ) ≤ 50 + 9 ∧ (0 : ℚ) < 250 ∧ (250 : ℚ) < 0 + 100) →
          collidePhase 200 0 ⟨50, 250, -5, 0, 9⟩ =
            { (⟨50, 250, -5, 0, 9⟩ : Ball) with
                x := 758 - 9, vx := -(21 / 4 : ℚ), vy := (21 / 4 : ℚ) * 0.5 * 4 })
        ∧ (¬ ((758 : ℚ) ≤ 50 + 9 ∧ (0 : ℚ) < 250 ∧ (250 : ℚ) < 0 + 100) →
            collidePhase 200 0 ⟨50, 250, -5, 0, 9⟩ = ⟨50, 250, -5, 0, 9⟩)) :=
  c4_paddle_collision 200 0 ⟨50, 250, -5, 0, 9⟩ rfl 0 (21 / 4) 4 (21 / 4)
    (by norm_num) (by norm_num [pyOr]) (by norm_num) (by norm_num [pyOr])

/-! ## Game-over emission (C5) -/

theorem getLast?_cons_ne_nil {α : Type u} (a : α) {l : List α} (h : l ≠ []) :
    (a :: l).getLast? = l.getLast? := by
  cases l with
  | nil => exact absurd rfl h
  | cons b t => simp [List.getLast?, List.getLast]

/-- C5: in any run of the game loop — for any paddle-input schedule, win
threshold, participants and start state — at most one `game_over` is
emitted; and once one has been emitted within `n` ticks, running any
longer changes nothing (the loop has terminated permanently) and the
`game_over`, addressed to the participants, is the last message of the
trace, so no `game_state` snapshot follows it. -/
theorem c5_game_over_once :
    ∀ (n : ℕ) (pad : ℕ → ℚ × ℚ) (winTo : ℕ) (parts : List String) (m : ℕ)
      (s : SimState), n ≤ m →
      overCount (loopRun pad winTo parts n s) ≤ 1
      ∧ (0 < overCount (loopRun pad winTo parts n s) →
          loopRun pad winTo parts m s = loopRun pad winTo parts n s
          ∧ ∃ sc, (loopRun pad winTo parts n s).getLast? = some (GMsg.over parts sc)) := by
  intro n
  induction n with
  | zero =>
    intro pad winTo parts m s hnm
    refine ⟨by simp [loopRun, overCount], ?_⟩
    intro h
    simp [loopRun, overCount] at h
  | succ n ih =>
    intro pad winTo parts m s hnm
    obtain ⟨m', rfl⟩ : ∃ m', m = m' + 1 := ⟨m - 1, by omega⟩
    have hnm' : n ≤ m' := by omega
    set t := tickPhysics (pad 0).1 (pad 0).2 s with ht
    by_cases hwin : winTo ≤ t.scoreL ∨ winTo ≤ t.scoreR
    · have hrun : ∀ k, loopRun pad winTo parts (k + 1) s =
          [GMsg.snap parts t.ball (pad 0).1 (pad 0).2 (t.scoreL, t.scoreR),
           GMsg.over parts (t.scoreL, t.scoreR)] := by
        intro k
        simp [loopRun, loopStep, ← ht, if_pos hwin]
      refine ⟨?_, ?_⟩
      · rw [hrun n]
        simp [overCount, GMsg.isOver]
      · intro _
        refine ⟨by rw [hrun n, hrun m'], (t.scoreL, t.scoreR), ?_⟩
        rw [hrun n]
        rfl
    · have hrun : ∀ k, loopRun pad winTo parts (k + 1) s =
          GMsg.snap parts t.ball (pad 0).1 (pad 0).2 (t.scoreL, t.scoreR) ::
            loopRun (fun i => pad (i + 1)) winTo parts k t := by
        intro k
        simp [loopRun, loopStep, ← ht, if_neg hwin]
      have IH := ih (fun i => pad (i + 1)) winTo parts m' t hnm'
      refine ⟨?_, ?_⟩
      · rw [hrun n]
        simpa [overCount, GMsg.isOver] using IH.1
      · intro hpos
        rw [hrun n] at hpos
        have hpos1 : 0 < overCount (loopRun (fun i => pad (i + 1)) winTo parts n t) := by
          simpa [overCount, GMsg.isOver] using hpos
        obtain ⟨heqm, sc, hlast⟩ := IH.2 hpos1
        refine ⟨by rw [hrun n, hrun m', heqm], sc, ?_⟩
        rw [hrun n]
        have hne : loopRun (fun i => pad (i + 1)) winTo parts n t ≠ [] := by
          intro h0
          rw [h0] at hpos1
          simp [overCount] at hpos1
        rw [getLast?_cons_ne_nil _ hne]
        exact hlast

/-- Witness for C5: win threshold 0, so the very first tick emits the
snapshot and the single `game_over`, and a longer run adds nothing. -/
theorem c5_game_over_once_witness :
    overCount (loopRun (fun _ => (200, 200)) 0 ["a", "b"] 1 initSim) ≤ 1
    ∧ (0 < overCount (loopRun (fun _ => (200, 200)) 0 ["a", "b"] 1 initSim) →
        loopRun (fun _ => (200, 200)) 0 ["a", "b"] 2 initSim =
          loopRun (fun _ => (200, 200)) 0 ["a", "b"] 1 initSim
        ∧ ∃ sc, (loopRun (fun _ => (200, 200)) 0 ["a", "b"] 1 initSim).getLast? =
            some (GMsg.over ["a", "b"] sc)) :=
  c5_game_over_once 1 (fun _ => (200, 200)) 0 ["a", "b"] 2 initSim (by norm_num)

/-! ## Move broadcast (C1) -/

/-- C1, refuted at a concrete two-player registry: the `move` handler
broadcasts `player_moved` with `exclude=None` (line 109), so the mover
`"a"` itself is among the delivered recipients, not only the other
connection `"b"`. -/
theorem c1_counterexample :
    "a" ∈ (handleMove (fun _ => false) "a" ⟨"a", "alice", 100, 100, "town"⟩
        (some 5) none
        ⟨[("a", ⟨"a", "alice", 100, 100, "town"⟩), ("b", ⟨"b", "bob", 100, 100, "town"⟩)],
         [("a", 0), ("b", 1)], [], []⟩).2.delivered
    ∧ (handleMove (fun _ => false) "a" ⟨"a", "alice", 100, 100, "town"⟩
        (some 5) none
        ⟨[("a", ⟨"a", "alice", 100, 100, "town"⟩), ("b", ⟨"b", "bob", 100, 100, "town"⟩)],
         [("a", 0), ("b", 1)], [], []⟩).2.delivered ≠ ["b"] := by
  constructor
  · simp [handleMove, broadcast, evictAll]
  · simp [handleMove, broadcast, evictAll]

/-- C1, amended: processing a `move` message updates the player's x and y
(each defaulting to its previous value when omitted) and broadcasts the
updated record to every registered connection *including* the mover's own
(the broadcast uses no exclusion). -/
theorem c1_move_updates_and_broadcasts (st : ServerState) (pid : String) (p : Player)
    (mx my : Option ℚ) (w : ℕ)
    (hconn : mapLookup pid st.connections = some w) :
    (handleMove (fun _ => false) pid p mx my st).2.player.x = mx.getD p.x
    ∧ (handleMove (fun _ => false) pid p mx my st).2.player.y = my.getD p.y
    ∧ (handleMove (fun _ => false) pid p mx my st).2.delivered = st.connections.map (·.1)
    ∧ pid ∈ (handleMove (fun _ => false) pid p mx my st).2.delivered := by
  have hdel : (handleMove (fun _ => false) pid p mx my st).2.delivered =
      st.connections.map (·.1) := by
    simp [handleMove, broadcast, evictAll]
  refine ⟨rfl, rfl, hdel, ?_⟩
  rw [hdel]
  exact mapLookup_mem_keys hconn

/-- Witness for C1's amended theorem at a one-player registry. -/
theorem c1_move_updates_and_broadcasts_witness :
    (handleMove (fun _ => false) "a" ⟨"a", "alice", 100, 100, "town"⟩ (some 7) none
        ⟨[("a", ⟨"a", "alice", 100, 100, "town"⟩)], [("a", 0)], [], []⟩).2.player.x =
      (some (7 : ℚ)).getD (⟨"a", "alice", 100, 100, "town"⟩ : Player).x
    ∧ (handleMove (fun _ => false) "a" ⟨"a", "alice", 100, 100, "town"⟩ (some 7) none
        ⟨[("a", ⟨"a", "alice", 100, 100, "town"⟩)], [("a", 0)], [], []⟩).2.player.y =
      (none : Option ℚ).getD (⟨"a", "alice", 100, 100, "town"⟩ : Player).y
    ∧ (handleMove (fun _ => false) "a" ⟨"a", "alice", 100, 100, "town"⟩ (some 7) none
        ⟨[("a", ⟨"a", "alice", 100, 100, "town"⟩)], [("a", 0)], [], []⟩).2.delivered =
      ([("a", 0)] : List (String × ℕ)).map (·.1)
    ∧ "a" ∈ (handleMove (fun _ => false) "a" ⟨"a", "alice", 100, 100, "town"⟩ (some 7) none
        ⟨[("a", ⟨"a", "alice", 100, 100, "town"⟩)], [("a", 0)], [], []⟩).2.delivered :=
  c1_move_updates_and_broadcasts
    ⟨[("a", ⟨"a", "alice", 100, 100, "town"⟩)], [("a", 0)], [], []⟩
    "a" ⟨"a", "alice", 100, 100, "town"⟩ (some 7) none 0 rfl

/-! ## join_game with no pending invite (C8) -/

/-- C8: a `join_game` whose host id is missing (or falsy) or has no
pending-invite entry — including a second acceptance after the invite was
consumed by the first — has no observable effect: no message is produced
and the registry, pending map and active map are returned unchanged. -/
theorem c8_join_game_ignored (fails : String → Bool) (joiner : String)
    (hostIdOpt : Option String) (st : ServerState)
    (h : ∀ hid, hostIdOpt = some hid → mapLookup hid st.pending = none) :
    handleJoinGame fails joiner hostIdOpt st = (st, none) := by
  cases hostIdOpt with
  | none => rfl
  | some hid =>
    simp only [handleJoinGame]
    by_cases he : hid = ""
    · rw [if_pos he]
    · rw [if_neg he, h hid rfl]

/-- Witness for C8 at an empty pending map. -/
theorem c8_join_game_ignored_witness :
    handleJoinGame (fun _ => false) "j" (some "h") ⟨[], [], [], []⟩ =
      (⟨[], [], [], []⟩, none) :=
  c8_join_game_ignored (fun _ => false) "j" (some "h") ⟨[], [], [], []⟩
    (fun _ _ => rfl)

/-! ## paddle_move routing and clamping (C10) -/

/-- C10: a `paddle_move` naming an active game — arriving on any
connection, there is no participant check — sets the left paddle when
side is exactly `"left"`, and the right paddle for every other side value
(`"right"`, absent, or invalid); the new y is the supplied y (0 when
omitted) clamped to [0, 400]. -/
theorem c10_paddle_move (st : ServerState) (hostId : String) (sideOpt : Option String)
    (yOpt : Option ℚ) (ag : ActiveEntry)
    (hid : hostId ≠ "")
    (hag : mapLookup hostId st.active = some ag) :
    (sideOpt = some "left" →
      handlePaddleMove (some hostId) sideOpt yOpt st =
        { st with
            active := mapInsert hostId
              ({ ag with state := { ag.state with
                  padL := max 0 (min 400 (yOpt.getD 0)) } }) st.active })
    ∧ (sideOpt ≠ some "left" →
      handlePaddleMove (some hostId) sideOpt yOpt st =
        { st with
            active := mapInsert hostId
              ({ ag with state := { ag.state with
                  padR := max 0 (min 400 (yOpt.getD 0)) } }) st.active })
    ∧ 0 ≤ max 0 (min 400 (yOpt.getD 0))
    ∧ max 0 (min 400 (yOpt.getD 0)) ≤ 400 := by
  have h400 : (500 : ℚ) - 100 = 400 := by norm_num
  refine ⟨?_, ?_, le_max_left 0 _, max_le (by norm_num) (min_le_left 400 _)⟩
  · intro hside
    simp only [handlePaddleMove, hag]
    rw [if_neg hid, if_pos hside, h400]
  · intro hside
    simp only [handlePaddleMove, hag]
    rw [if_neg hid, if_neg hside, h400]

/-- Witness for C10: a `paddle_move` with side `"left"` and y = 250
against a freshly seeded active game. -/
theorem c10_paddle_move_witness :
    ((some "left" : Option String) = some "left" →
      handlePaddleMove (some "h") (some "left") (some 250)
          ⟨[], [], [],
           [("h", ⟨⟨⟨"h", "host", 100, 100, "town"⟩, "h", ["h", "j"],
              ⟨400, 250, 5, 0, 9⟩, 200, 200, 0, 0, 7⟩, true⟩)]⟩ =
        { (⟨[], [], [],
           [("h", ⟨⟨⟨"h", "host", 100, 100, "town"⟩, "h", ["h", "j"],
              ⟨400, 250, 5, 0, 9⟩, 200, 200, 0, 0, 7⟩, true⟩)]⟩ : ServerState) with
            active := mapInsert "h"
              { (⟨⟨⟨"h", "host", 100, 100, "town"⟩, "h", ["h", "j"],
                  ⟨400, 250, 5, 0, 9⟩, 200, 200, 0, 0, 7⟩, true⟩ : ActiveEntry) with
                  state := { (⟨⟨"h", "host", 100, 100, "town"⟩, "h", ["h", "j"],
                      ⟨400, 250, 5, 0, 9⟩, 200, 200, 0, 0, 7⟩ : StoredGame) with
                      padL := max 0 (min 400 ((some (250 : ℚ)).getD 0)) } }
              [("h", ⟨⟨⟨"h", "host", 100, 100, "town"⟩, "h", ["h", "j"],
                 ⟨400, 250, 5, 0, 9⟩, 200, 200, 0, 0, 7⟩, true⟩)] })
    ∧ ((some "left" : Option String) ≠ some "left" →
      handlePaddleMove (some "h") (some "left") (some 250)
          ⟨[], [], [],
           [("h", ⟨⟨⟨"h", "host", 100, 100, "town"⟩, "h", ["h", "j"],
              ⟨400, 250, 5, 0, 9⟩, 200, 200, 0, 0, 7⟩, true⟩)]⟩ =
        { (⟨[], [], [],
           [("h", ⟨⟨⟨"h", "host", 100, 100, "town"⟩, "h", ["h", "j"],
              ⟨400, 250, 5, 0, 9⟩, 200, 200, 0, 0, 7⟩, true⟩)]⟩ : ServerState) with
            active := mapInsert "h"
              { (⟨⟨⟨"h", "host", 100, 100, "town"⟩, "h", ["h", "j"],
                  ⟨400, 250, 5, 0, 9⟩, 200, 200, 0, 0, 7⟩, true⟩ : ActiveEntry) with
                  state := { (⟨⟨"h", "host", 100, 100, "town"⟩, "h", ["h", "j"],
                      ⟨400, 250, 5, 0, 9⟩, 200, 200, 0, 0, 7⟩ : StoredGame) with
                      padR := max 0 (min 400 ((some (250 : ℚ)).getD 0)) } }
              [("h", ⟨⟨⟨"h", "host", 100, 100, "town"⟩, "h", ["h", "j"],
                 ⟨400, 250, 5, 0, 9⟩, 200, 200, 0, 0, 7⟩, true⟩)] })
    ∧ 0 ≤ max 0 (min 400 ((some (250 : ℚ)).getD 0))
    ∧ max 0 (min 400 ((some (250 : ℚ)).getD 0)) ≤ 400 :=
  c10_paddle_move
    ⟨[], [], [],
     [("h", ⟨⟨⟨"h", "host", 100, 100, "town"⟩, "h", ["h", "j"],
        ⟨400, 250, 5, 0, 9⟩, 200, 200, 0, 0, 7⟩, true⟩)]⟩
    "h" (some "left") (some 250)
    ⟨⟨⟨"h", "host", 100, 100, "town"⟩, "h", ["h", "j"],
      ⟨400, 250, 5, 0, 9⟩, 200, 200, 0, 0, 7⟩, true⟩
    (by decide) rfl

/-! ## Duplicate-name join rejection (C7) -/

/-- C7: while a connection is in `AwaitingJoin`, a `join` whose proposed
name is already held by a connected player is answered with a
`join_rejected` carrying suggestion `proposed + "-1"`, no player is
registered, and the handshake simply continues on the connection's
subsequent frames — the state and the remaining processing are exactly
those of running the handshake on the rest of the stream. -/
theorem c7_duplicate_join_rejected (fresh : String) (ws : ℕ) (fails : String → Bool)
    (pid : String) (st : ServerState) (nameOpt : Option String) (rest : List HMsg)
    (hdup : st.players.any
      (fun q => q.2.name == pyStrip (pyOrStr nameOpt ("Player-" ++ pid.take 4))) = true) :
    runHandshake fresh ws fails pid st (HMsg.join nameOpt :: rest) =
      ((runHandshake fresh ws fails pid st rest).1,
       OutMsg.joinRejected "duplicate"
           (pyStrip (pyOrStr nameOpt ("Player-" ++ pid.take 4)) ++ "-1") ::
         (runHandshake fresh ws fails pid st rest).2.1,
       (runHandshake fresh ws fails pid st rest).2.2) := by
  simp only [runHandshake]
  rw [if_pos hdup]

/-- Witness for C7: joining as `"bob"` while a connected player already
holds that name is rejected with suggestion `"bob-1"` and, with no
further frames, leaves the registry untouched and the connection
unjoined. -/
theorem c7_duplicate_join_rejected_witness :
    runHandshake "f" 0 (fun _ => false) "p1"
        ⟨[("b", ⟨"b", "bob", 100, 100, "town"⟩)], [("b", 3)], [], []⟩
        (HMsg.join (some "bob") :: []) =
      ((runHandshake "f" 0 (fun _ => false) "p1"
          ⟨[("b", ⟨"b", "bob", 100, 100, "town"⟩)], [("b", 3)], [], []⟩ []).1,
       OutMsg.joinRejected "duplicate"
           (pyStrip (pyOrStr (some "bob") ("Player-" ++ "p1".take 4)) ++ "-1") ::
         (runHandshake "f" 0 (fun _ => false) "p1"
            ⟨[("b", ⟨"b", "bob", 100, 100, "town"⟩)], [("b", 3)], [], []⟩ []).2.1,
       (runHandshake "f" 0 (fun _ => false) "p1"
          ⟨[("b", ⟨"b", "bob", 100, 100, "town"⟩)], [("b", 3)], [], []⟩ []).2.2) :=
  c7_duplicate_join_rejected "f" 0 (fun _ => false) "p1"
    ⟨[("b", ⟨"b", "bob", 100, 100, "town"⟩)], [("b", 3)], [], []⟩
    (some "bob") [] (by rfl)

/-! ## Invite acceptance (C3) -/

theorem mapLookup_isSome_iff_mem {l : List (String × β)} {k : String} :
    (mapLookup k l).isSome ↔ k ∈ l.map (·.1) := by
  induction l with
  | nil => simp [mapLookup]
  | cons q l ih =>
    by_cases h : q.1 = k
    · simp [mapLookup, h]
    · simp only [mapLookup, if_neg h, List.map_cons, List.mem_cons, ih]
      constructor
      · exact fun hm => Or.inr hm
      · rintro (rfl | hm)
        · exact absurd rfl h
        · exact hm

theorem keysAligned_of_keys_eq (st : ServerState)
    (h : st.players.map (·.1) = st.connections.map (·.1)) : keysAligned st := by
  intro k
  rw [mapLookup_isSome_iff_mem, mapLookup_isSome_iff_mem, h]

/-- C3, refuted at a concrete reachable state: disconnect cleanup (lines
281-292) removes a player but never clears `pending_games`, and the
roster construction (lines 174-182) skips ids with no player record; so a
`join_game` for a host that has a pending invite but has disconnected
builds a one-participant roster — only the joiner, side `"right"` — not a
two-participant roster with the host on the left. -/
theorem c3_counterexample :
    (handleJoinGame (fun _ => false) "j" (some "h")
        ⟨[("j", ⟨"j", "jo", 100, 100, "town"⟩)], [("j", 1)],
         [("h", ⟨"pong", "plaza", ⟨"h", "ho", 100, 100, "town"⟩, ["h"]⟩)], []⟩).2 =
      some ⟨⟨"pong", "plaza", ⟨"h", "ho", 100, 100, "town"⟩, ["h"]⟩,
            [⟨⟨"j", "jo", 100, 100, "town"⟩, "right"⟩], ["j"]⟩
    ∧ (handleJoinGame (fun _ => false) "j" (some "h")
        ⟨[("j", ⟨"j", "jo", 100, 100, "town"⟩)], [("j", 1)],
         [("h", ⟨"pong", "plaza", ⟨"h", "ho", 100, 100, "town"⟩, ["h"]⟩)], []⟩).2.map
        (fun o => o.roster.length) = some 1 := by
  constructor
  · rfl
  · rfl

/-- C3, amended: for every `join_game` naming a host id that has a
PendingInvite, *provided the host (and the joiner) are still registered
players*: the invite entry is removed, the roster is the host with side
`"left"` and the joiner with side `"right"`, the `game_started` carrying
both side-annotated records is broadcast to every connection, and an
ActiveGame keyed by the host id is created with ball (400, 250), velocity
(5, 0), paddles at 200, scores (0, 0), win threshold 7, and its loop task
started. -/
theorem c3_invite_acceptance (st : ServerState) (joiner hostId : String)
    (pend : PendingGame) (hp jp : Player)
    (hhost : hostId ≠ "")
    (hpend : mapLookup hostId st.pending = some pend)
    (hhp : mapLookup hostId st.players = some hp)
    (hjp : mapLookup joiner st.players = some jp) :
    (handleJoinGame (fun _ => false) joiner (some hostId) st).2 =
      some ⟨pend, [⟨hp, "left"⟩, ⟨jp, "right"⟩], st.connections.map (·.1)⟩
    ∧ mapLookup hostId
        (handleJoinGame (fun _ => false) joiner (some hostId) st).1.pending = none
    ∧ mapLookup hostId
        (handleJoinGame (fun _ => false) joiner (some hostId) st).1.active =
      some ⟨⟨pend.host, hostId, [hp.pid, jp.pid],
             ⟨400, 250, 5, 0, 9⟩, 200, 200, 0, 0, 7⟩, true⟩ := by
  refine ⟨?_, ?_, ?_⟩ <;>
    simp [handleJoinGame, broadcast, evictAll, hhost, hpend, hhp, hjp,
      mapLookup_erase, mapLookup_insert]

/-- Witness for C3's amended theorem: host and joiner both registered. -/
theorem c3_invite_acceptance_witness :
    (handleJoinGame (fun _ => false) "j" (some "h")
        ⟨[("h", ⟨"h", "ho", 100, 100, "town"⟩), ("j", ⟨"j", "jo", 100, 100, "town"⟩)],
         [("h", 0), ("j", 1)],
         [("h", ⟨"pong", "plaza", ⟨"h", "ho", 100, 100, "town"⟩, ["h"]⟩)], []⟩).2 =
      some ⟨⟨"pong", "plaza", ⟨"h", "ho", 100, 100, "town"⟩, ["h"]⟩,
            [⟨⟨"h", "ho", 100, 100, "town"⟩, "left"⟩,
             ⟨⟨"j", "jo", 100, 100, "town"⟩, "right"⟩],
            ([("h", 0), ("j", 1)] : List (String × ℕ)).map (·.1)⟩
    ∧ mapLookup "h"
        (handleJoinGame (fun _ => false) "j" (some "h")
          ⟨[("h", ⟨"h", "ho", 100, 100, "town"⟩), ("j", ⟨"j", "jo", 100, 100, "town"⟩)],
           [("h", 0), ("j", 1)],
           [("h", ⟨"pong", "plaza", ⟨"h", "ho", 100, 100, "town"⟩, ["h"]⟩)], []⟩).1.pending =
      none
    ∧ mapLookup "h"
        (handleJoinGame (fun _ => false) "j" (some "h")
          ⟨[("h", ⟨"h", "ho", 100, 100, "town"⟩), ("j", ⟨"j", "jo", 100, 100, "town"⟩)],
           [("h", 0), ("j", 1)],
           [("h", ⟨"pong", "plaza", ⟨"h", "ho", 100, 100, "town"⟩, ["h"]⟩)], []⟩).1.active =
      some ⟨⟨(⟨"pong", "plaza", ⟨"h", "ho", 100, 100, "town"⟩, ["h"]⟩ : PendingGame).host,
             "h",
             [(⟨"h", "ho", 100, 100, "town"⟩ : Player).pid,
              (⟨"j", "jo", 100, 100, "town"⟩ : Player).pid],
             ⟨400, 250, 5, 0, 9⟩, 200, 200, 0, 0, 7⟩, true⟩ :=
  c3_invite_acceptance
    ⟨[("h", ⟨"h", "ho", 100, 100, "town"⟩), ("j", ⟨"j", "jo", 100, 100, "town"⟩)],
     [("h", 0), ("j", 1)],
     [("h", ⟨"pong", "plaza", ⟨"h", "ho", 100, 100, "town"⟩, ["h"]⟩)], []⟩
    "j" "h" ⟨"pong", "plaza", ⟨"h", "ho", 100, 100, "town"⟩, ["h"]⟩
    ⟨"h", "ho", 100, 100, "town"⟩ ⟨"j", "jo", 100, 100, "town"⟩
    (by decide) rfl rfl rfl

/-! ## Proximity chat (C6) -/

/-- C6: a `chat` from a joined sender is truncated to at most 1000
characters; it is delivered to exactly those other currently known
players whose squared Euclidean distance to the sender is at most 200²
(all of which hold a live connection when the registries are aligned),
and the sender always receives its own echo regardless of distance. -/
theorem c6_proximity_chat (st : ServerState) (pid : String) (p : Player)
    (content : String)
    (hnd : (st.players.map (·.1)).Nodup)
    (hal : keysAligned st) :
    (handleChat (fun _ => false) pid p content st).2.content = content.take 1000
    ∧ (handleChat (fun _ => false) pid p content st).2.senderEcho = true
    ∧ ∀ q : String,
        q ∈ (handleChat (fun _ => false) pid p content st).2.delivered ↔
          ∃ rec : Player, mapLookup q st.players = some rec ∧ ¬ q = pid
            ∧ (rec.x - p.x) ^ 2 + (rec.y - p.y) ^ 2 ≤ 200 ^ 2 := by
  refine ⟨by simp only [handleChat], by simp only [handleChat], ?_⟩
  intro q
  constructor
  · intro hq
    simp only [handleChat, send_to_players] at hq
    rw [List.mem_filter] at hq
    obtain ⟨hq1, _⟩ := hq
    rw [List.mem_map] at hq1
    obtain ⟨e, he, rfl⟩ := hq1
    rw [List.mem_filter] at he
    obtain ⟨hel, hef⟩ := he
    rw [decide_eq_true_eq] at hef
    exact ⟨e.2, (mem_iff_mapLookup_of_nodup hnd).mp hel, hef.1, hef.2⟩
  · rintro ⟨rec, hrec, hne, hdist⟩
    simp only [handleChat, send_to_players]
    rw [List.mem_filter]
    refine ⟨?_, ?_⟩
    · rw [List.mem_map]
      refine ⟨(q, rec), ?_, rfl⟩
      rw [List.mem_filter]
      refine ⟨(mem_iff_mapLookup_of_nodup hnd).mpr hrec, ?_⟩
      rw [decide_eq_true_eq]
      exact ⟨hne, hdist⟩
    · have hs : (mapLookup q st.players).isSome = true := by
        rw [hrec]
        rfl
      have hc := (hal q).mp hs
      simp [hc]

/-- Witness for C6 at senders/receivers (0,0), (150,0), (300,0): the
characterization instantiated at a concrete three-player registry. -/
theorem c6_proximity_chat_witness :
    (handleChat (fun _ => false) "a" ⟨"a", "ann", 0, 0, "town"⟩ "hello"
        ⟨[("a", ⟨"a", "ann", 0, 0, "town"⟩), ("b", ⟨"b", "ben", 150, 0, "town"⟩),
          ("c", ⟨"c", "cal", 300, 0, "town"⟩)],
         [("a", 0), ("b", 1), ("c", 2)], [], []⟩).2.content = "hello".take 1000
    ∧ (handleChat (fun _ => false) "a" ⟨"a", "ann", 0, 0, "town"⟩ "hello"
        ⟨[("a", ⟨"a", "ann", 0, 0, "town"⟩), ("b", ⟨"b", "ben", 150, 0, "town"⟩),
          ("c", ⟨"c", "cal", 300, 0, "town"⟩)],
         [("a", 0), ("b", 1), ("c", 2)], [], []⟩).2.senderEcho = true
    ∧ ∀ q : String,
        q ∈ (handleChat (fun _ => false) "a" ⟨"a", "ann", 0, 0, "town"⟩ "hello"
          ⟨[("a", ⟨"a", "ann", 0, 0, "town"⟩), ("b", ⟨"b", "ben", 150, 0, "town"⟩),
            ("c", ⟨"c", "cal", 300, 0, "town"⟩)],
           [("a", 0), ("b", 1), ("c", 2)], [], []⟩).2.delivered ↔
          ∃ rec : Player,
            mapLookup q
              [("a", ⟨"a", "ann", 0, 0, "town"⟩), ("b", ⟨"b", "ben", 150, 0, "town"⟩),
               ("c", ⟨"c", "cal", 300, 0, "town"⟩)] = some rec
            ∧ ¬ q = "a"
            ∧ (rec.x - (⟨"a", "ann", 0, 0, "town"⟩ : Player).x) ^ 2 +
                (rec.y - (⟨"a", "ann", 0, 0, "town"⟩ : Player).y) ^ 2 ≤ 200 ^ 2 :=
  c6_proximity_chat
    ⟨[("a", ⟨"a", "ann", 0, 0, "town"⟩), ("b", ⟨"b", "ben", 150, 0, "town"⟩),
      ("c", ⟨"c", "cal", 300, 0, "town"⟩)],
     [("a", 0), ("b", 1), ("c", 2)], [], []⟩
    "a" ⟨"a", "ann", 0, 0, "town"⟩ "hello"
    (by decide)
    (keysAligned_of_keys_eq _ rfl)
